import Mathlib

/-!
Verification development for the `endodoncia` static-site repository.

Shallow embedding of the three entry points:
  * `deploy.py` — the Publisher: `upload_directory_to_s3`, `invalidate_cloudfront`, `main`;
  * `build.py`  — the builder: `clean_dist`, `copy_assets`, `render_templates`, `build`;
  * `serve.py`  — the preview server entry: `serve_site`.

File system and network effects are made explicit: the set of regular files
under the output root is a list of relative component paths, upload and
invalidation failures are oracles, and each function returns the trace of
remote calls it made together with the error it raised, if any.
-/

namespace Endodoncia

/-! ### Path helpers (Python `pathlib` semantics) -/

/-- `PurePath.as_posix()` on a relative path given by its components:
join with forward slashes. -/
def posixJoin (components : List String) : String :=
  String.intercalate "/" components

/-- The final component of a relative path (Python `Path.name`). -/
def lastComp (components : List String) : String :=
  components.getLastD ""

/-- Index of the last occurrence of `c` in `cs` (Python `str.rfind`,
with `none` for "not found"). -/
def rfindIdx (c : Char) (cs : List Char) : Option Nat :=
  match cs.reverse.findIdx? (fun a => a = c) with
  | none => none
  | some j => some (cs.length - 1 - j)

/-- Python `Path.suffix` of a file name: the substring from the last dot,
provided that dot is neither the first nor the last character; otherwise `""`. -/
def pySuffix (name : String) : String :=
  let cs := name.toList
  match rfindIdx '.' cs with
  | none => ""
  | some i => if 0 < i ∧ i < cs.length - 1 then String.mk (cs.drop i) else ""

/-! ### Publisher (`deploy.py`) -/

/-- The `ExtraArgs` content type chosen by `upload_directory_to_s3`
(deploy.py lines 26–32): dispatch on `path.suffix`. -/
def extContentType (suffix : String) : Option String :=
  if suffix = ".html" then some "text/html; charset=utf-8"
  else if suffix = ".css" then some "text/css; charset=utf-8"
  else if suffix = ".js" then some "application/javascript; charset=utf-8"
  else none

/-- One `s3.upload_file` call: source path string, bucket, key and the
optional `ContentType` extra argument. -/
structure UploadCall where
  src : String
  bucket : String
  key : String
  contentType : Option String
deriving DecidableEq

/-- The per-file computation of the loop body of `upload_directory_to_s3`
(deploy.py lines 24–32): `rel = path.relative_to(DIST_DIR)`,
`key = f"{prefix}{rel.as_posix()}" if prefix else rel.as_posix()`,
and the extension dispatch. `distDir` renders `DIST_DIR`, `f` the
relative components of the file. -/
def mkUploadCall (distDir bucket pfx : String) (f : List String) : UploadCall :=
  { src := distDir ++ "/" ++ posixJoin f
    bucket := bucket
    key := if pfx = "" then posixJoin f else pfx ++ posixJoin f
    contentType := extContentType (pySuffix (lastComp f)) }

/-- `upload_directory_to_s3` (deploy.py lines 13–37).  `files` is the list of
regular files under `DIST_DIR` (directories are skipped by the source);
`uploadErr f = some e` means `s3.upload_file` raises `ClientError e` on `f`.
Returns the list of `upload_file` calls made and the message of the
`RuntimeError` raised, if any; a raise stops the loop. -/
def upload_directory_to_s3 (distDir bucket pfx : String)
    (files : List (List String)) (uploadErr : List String → Option String) :
    List UploadCall × Option String :=
  match files with
  | [] => ([], none)
  | f :: rest =>
    let call := mkUploadCall distDir bucket pfx f
    match uploadErr f with
    | some e =>
      ([call], some ("Failed to upload " ++ call.src ++ " -> " ++ call.key ++ ": " ++ e))
    | none =>
      let tail := upload_directory_to_s3 distDir bucket pfx rest uploadErr
      (call :: tail.1, tail.2)

/-- One `cf.create_invalidation` call. -/
structure InvalidationCall where
  distributionId : String
  quantity : Nat
  items : List String
  callerReference : String
deriving DecidableEq

/-- `invalidate_cloudfront` (deploy.py lines 40–55).  `distributionId` is the
optional environment value; `randHex` renders `os.urandom(8).hex()`;
`cfErr = some e` means `create_invalidation` raises `ClientError e`.
Returns the invalidation calls made and the `RuntimeError` message, if any. -/
def invalidate_cloudfront (distributionId : Option String) (randHex : String)
    (cfErr : Option String) : List InvalidationCall × Option String :=
  match distributionId with
  | none => ([], none)
  | some d =>
    if d = "" then ([], none)
    else
      let call : InvalidationCall :=
        { distributionId := d
          quantity := 1
          items := ["/*"]
          callerReference := "endodoncia-" ++ randHex }
      match cfErr with
      | some e => ([call], some ("Failed to create invalidation: " ++ e))
      | none => ([call], none)

/-- Outcome of running `main` in `deploy.py`: a `SystemExit` configuration
abort, a `RuntimeError` propagated out, or normal completion. -/
inductive PublishOutcome where
  | configExit (msg : String)
  | runtimeError (msg : String)
  | ok
deriving DecidableEq

/-- The observable trace of one `deploy.py` `main` invocation: every
`upload_file` call, every `create_invalidation` call, and the outcome. -/
structure PublishTrace where
  uploads : List UploadCall
  invalidations : List InvalidationCall
  outcome : PublishOutcome
deriving DecidableEq

/-- `main` of deploy.py (lines 58–69).  `env` is `os.environ.get`;
`distExists` renders `DIST_DIR.exists()`; `files`, `uploadErr`, `randHex`
and `cfErr` are as in the two functions it calls. -/
def deployMain (env : String → Option String) (distDir : String) (distExists : Bool)
    (files : List (List String)) (uploadErr : List String → Option String)
    (randHex : String) (cfErr : Option String) : PublishTrace :=
  match env "AWS_S3_BUCKET" with
  | none =>
    { uploads := []
      invalidations := []
      outcome := .configExit "AWS_S3_BUCKET environment variable is required" }
  | some bucket =>
    if bucket = "" then
      { uploads := []
        invalidations := []
        outcome := .configExit "AWS_S3_BUCKET environment variable is required" }
    else
      let pfx := (env "AWS_S3_PREFIX").getD ""
      let distributionId := env "CLOUDFRONT_DIST_ID"
      if distExists = false then
        { uploads := []
          invalidations := []
          outcome := .configExit "dist/ not found. Run `uv run build-site` first." }
      else
        let up := upload_directory_to_s3 distDir bucket pfx files uploadErr
        match up.2 with
        | some msg =>
          { uploads := up.1, invalidations := [], outcome := .runtimeError msg }
        | none =>
          let inv := invalidate_cloudfront distributionId randHex cfErr
          match inv.2 with
          | some msg =>
            { uploads := up.1, invalidations := inv.1, outcome := .runtimeError msg }
          | none =>
            { uploads := up.1, invalidations := inv.1, outcome := .ok }

/-! ### Builder (`build.py`) -/

/-- The template-to-output mapping of `render_templates`
(build.py lines 79–87): (template name, output path) pairs. -/
def siteTemplates : List (String × String) :=
  [("index.html", "index.html"),
   ("root-canal.html", "root-canal-treatment/index.html"),
   ("root-canal-retreatment.html", "root-canal-retreatment/index.html"),
   ("endodontic-microsurgery.html", "endodontic-microsurgery/index.html"),
   ("dental-trauma.html", "dental-trauma/index.html"),
   ("internal-bleaching.html", "internal-bleaching/index.html"),
   ("contact-form.html", "contacto/index.html")]

/-- The output root as a finite path-to-content map, as an association list
in which the earliest entry for a path is its current content (a later
file write is modelled by prepending its entry). -/
abbrev Dist := List (String × String)

/-- `clean_dist` (build.py lines 60–63): remove the output tree if it exists
and recreate it empty; the resulting tree is empty whatever was there. -/
def clean_dist (_prev : Dist) : Dist := []

/-- `copy_assets` (build.py lines 66–68): if the assets tree exists
(`assets = some l`), copy every file of it below `assets/`; otherwise
do nothing. -/
def copy_assets (assets : Option (List (String × String))) (dist : Dist) : Dist :=
  match assets with
  | none => dist
  | some l => l.map (fun a => ("assets/" ++ a.1, a.2)) ++ dist

/-- `render_templates` (build.py lines 71–96): for each pair of
`siteTemplates` in order, render the template against the context and
write the result at the output path.  `renderFn t ctx` renders template
`t`; `Ctx` is the type of the site context. -/
def render_templates {Ctx : Type} (renderFn : String → Ctx → String) (ctx : Ctx)
    (dist : Dist) : Dist :=
  siteTemplates.foldl (fun d t => (t.2, renderFn t.1 ctx) :: d) dist

/-- `build` (build.py lines 99–103): clean the output root, copy assets,
render the templates.  `prev` is whatever the output root held before. -/
def build {Ctx : Type} (prev : Dist) (assets : Option (List (String × String)))
    (renderFn : String → Ctx → String) (ctx : Ctx) : Dist :=
  render_templates renderFn ctx (copy_assets assets (clean_dist prev))

/-! ### Preview server entry (`serve.py`) -/

/-- `"needle" in str(e)` for Python strings: substring test. -/
def strContains (haystack needle : String) : Bool :=
  decide (needle.toList <:+: haystack.toList)

/-- What one `serve_site` call did: the lines it printed, in order, and
whether `server.serve_forever()` was reached. -/
structure ServeResult where
  printed : List String
  enteredServeLoop : Bool
deriving DecidableEq

/-- The banner printed by `serve_site` before binding (serve.py lines 29–34). -/
def serveBanner (distDir : String) (port : Nat) : List String :=
  ["🚀 Starting server...",
   "📁 Serving: " ++ distDir,
   "🌐 URL: http://localhost:" ++ toString port,
   "📱 The site will open automatically in your browser",
   "⏹️  Press Ctrl+C to stop the server",
   "--------------------------------------------------"]

/-- `serve_site` (serve.py lines 21–53).  `distExists` renders
`dist_dir.exists()`; `bindErr = some e` means `HTTPServer((localhost, port), …)`
raises `OSError(e)`; `bindErr = none` means the bind succeeds and
`serve_forever()` is entered. -/
def serve_site (distDir : String) (distExists : Bool) (port : Nat)
    (bindErr : Option String) : ServeResult :=
  if distExists = false then
    { printed := ["❌ Error: dist directory not found. Run 'uv run build-site' first."]
      enteredServeLoop := false }
  else
    match bindErr with
    | none =>
      { printed := serveBanner distDir port, enteredServeLoop := true }
    | some e =>
      if strContains e "Address already in use" then
        { printed := serveBanner distDir port ++
            ["❌ Port " ++ toString port ++ " is already in use. Try a different port:",
             "   python serve.py " ++ toString (port + 1)]
          enteredServeLoop := false }
      else
        { printed := serveBanner distDir port ++ ["❌ Server error: " ++ e]
          enteredServeLoop := false }

/-! ### Helper lemmas -/

theorem string_append_cancel_left {s a b : String} (h : s ++ a = s ++ b) : a = b := by
  have hd : s.data ++ a.data = s.data ++ b.data := by
    have := congrArg String.data h
    simpa using this
  have hab : a.data = b.data := List.append_cancel_left hd
  cases a; cases b; exact congrArg String.mk hab

theorem upload_all_ok (dd b p : String) (err : List String → Option String) :
    ∀ fl : List (List String), (∀ f ∈ fl, err f = none) →
      upload_directory_to_s3 dd b p fl err = (fl.map (mkUploadCall dd b p), none) := by
  intro fl
  induction fl with
  | nil => intro _; rfl
  | cons f rest ih =>
    intro h
    have hf : err f = none := h f (List.mem_cons_self f rest)
    have hrest : ∀ g ∈ rest, err g = none := fun g hg => h g (List.mem_cons_of_mem f hg)
    simp [upload_directory_to_s3, hf, ih hrest]

theorem upload_first_fail (dd b p : String) (err : List String → Option String)
    (f : List String) (e : String) (hf : err f = some e) :
    ∀ pre post : List (List String), (∀ g ∈ pre, err g = none) →
      upload_directory_to_s3 dd b p (pre ++ f :: post) err =
        ((pre ++ [f]).map (mkUploadCall dd b p),
         some ("Failed to upload " ++ (mkUploadCall dd b p f).src ++ " -> " ++
               (mkUploadCall dd b p f).key ++ ": " ++ e)) := by
  intro pre
  induction pre with
  | nil =>
    intro post _
    simp [upload_directory_to_s3, hf]
  | cons g rest ih =>
    intro post h
    have hg : err g = none := h g (List.mem_cons_self g rest)
    have hrest : ∀ x ∈ rest, err x = none := fun x hx => h x (List.mem_cons_of_mem g hx)
    simp [upload_directory_to_s3, hg, ih post hrest]

theorem mem_upload_calls (dd b p : String) (err : List String → Option String) :
    ∀ fl : List (List String), ∀ c ∈ (upload_directory_to_s3 dd b p fl err).1,
      ∃ f ∈ fl, c = mkUploadCall dd b p f := by
  intro fl
  induction fl with
  | nil => intro c hc; simp [upload_directory_to_s3] at hc
  | cons f rest ih =>
    intro c hc
    match he : err f with
    | some e =>
      simp [upload_directory_to_s3, he] at hc
      exact ⟨f, List.mem_cons_self f rest, hc⟩
    | none =>
      simp [upload_directory_to_s3, he] at hc
      rcases hc with hc | hc
      · exact ⟨f, List.mem_cons_self f rest, hc⟩
      · obtain ⟨g, hg, hcg⟩ := ih c hc
        exact ⟨g, List.mem_cons_of_mem f hg, hcg⟩

theorem upload_err_none_iff (dd b p : String) (err : List String → Option String) :
    ∀ fl : List (List String),
      (upload_directory_to_s3 dd b p fl err).2 = none ↔ ∀ f ∈ fl, err f = none := by
  intro fl
  induction fl with
  | nil => simp [upload_directory_to_s3]
  | cons f rest ih =>
    match he : err f with
    | some e =>
      simp [upload_directory_to_s3, he]
    | none =>
      simp [upload_directory_to_s3, he, ih]

theorem mem_invalidation_calls (dOpt : Option String) (r : String) (ce : Option String) :
    ∀ c ∈ (invalidate_cloudfront dOpt r ce).1, c.callerReference = "endodoncia-" ++ r := by
  intro c hc
  match dOpt with
  | none => simp [invalidate_cloudfront] at hc
  | some d =>
    by_cases hd : d = ""
    · simp [invalidate_cloudfront, hd] at hc
    · cases ce <;> simp [invalidate_cloudfront, hd] at hc <;> simp [hc]

/-! ### Claims -/

/-- Claim C1: for every file uploaded by the Publisher, the bucket key is the
prefix concatenated verbatim with the file's relative path from the output
root joined with forward slashes; with an empty prefix the key is exactly
that relative path, with no leading slash inserted. -/
theorem publisher_key_computation (dd b p : String) (fl : List (List String))
    (err : List String → Option String) :
    ∀ c ∈ (upload_directory_to_s3 dd b p fl err).1,
      ∃ f ∈ fl, c.key = p ++ posixJoin f ∧ (p = "" → c.key = posixJoin f) := by
  intro c hc
  obtain ⟨f, hf, rfl⟩ := mem_upload_calls dd b p err fl c hc
  refine ⟨f, hf, ?_, ?_⟩
  · by_cases hp : p = ""
    · subst hp; simp [mkUploadCall]
    · simp [mkUploadCall, hp]
  · intro hp; subst hp; simp [mkUploadCall]

/-- Concrete instance of C1: output root `dist/` containing `dist/a/b.html`
with prefix `"site/"` yields the key `site/a/b.html`. -/
theorem publisher_key_computation_witness :
    (∃ f ∈ [["a", "b.html"]],
      (mkUploadCall "dist" "bkt" "site/" ["a", "b.html"]).key = "site/" ++ posixJoin f ∧
      ("site/" = "" →
        (mkUploadCall "dist" "bkt" "site/" ["a", "b.html"]).key = posixJoin f)) ∧
    (mkUploadCall "dist" "bkt" "site/" ["a", "b.html"]).key = "site/a/b.html" :=
  ⟨publisher_key_computation "dist" "bkt" "site/" [["a", "b.html"]] (fun _ => none)
      (mkUploadCall "dist" "bkt" "site/" ["a", "b.html"]) (by decide),
   by decide⟩

/-- Claim C2: the Publisher assigns content type solely by file extension:
`.html`, `.css` and `.js` get their charset-qualified types, any other
extension gets no explicit content-type override. -/
theorem publisher_content_type (dd b p : String) (fl : List (List String))
    (err : List String → Option String) :
    ∀ c ∈ (upload_directory_to_s3 dd b p fl err).1,
      ∃ f ∈ fl,
        (pySuffix (lastComp f) = ".html" →
          c.contentType = some "text/html; charset=utf-8") ∧
        (pySuffix (lastComp f) = ".css" →
          c.contentType = some "text/css; charset=utf-8") ∧
        (pySuffix (lastComp f) = ".js" →
          c.contentType = some "application/javascript; charset=utf-8") ∧
        (pySuffix (lastComp f) ≠ ".html" → pySuffix (lastComp f) ≠ ".css" →
          pySuffix (lastComp f) ≠ ".js" → c.contentType = none) := by
  intro c hc
  obtain ⟨f, hf, rfl⟩ := mem_upload_calls dd b p err fl c hc
  refine ⟨f, hf, ?_, ?_, ?_, ?_⟩
  · intro h; simp [mkUploadCall, extContentType, h]
  · intro h; simp [mkUploadCall, extContentType, h]
  · intro h; simp [mkUploadCall, extContentType, h]
  · intro h1 h2 h3; simp [mkUploadCall, extContentType, h1, h2, h3]

/-- Concrete instance of C2: `styles.css` uploads as `text/css; charset=utf-8`. -/
theorem publisher_content_type_witness :
    (mkUploadCall "dist" "bkt" "" ["styles.css"]).contentType =
      some "text/css; charset=utf-8" := by
  have h := publisher_content_type "dist" "bkt" "" [["styles.css"]] (fun _ => none)
      (mkUploadCall "dist" "bkt" "" ["styles.css"]) (by decide)
  obtain ⟨f, hf, h1, h2, h3, h4⟩ := h
  have hfe : f = ["styles.css"] := by simpa using hf
  subst hfe
  exact h2 (by decide)

/-- Claim C3: with `AWS_S3_BUCKET` absent or empty, or with the output root
missing, `main` aborts with a configuration exit and makes no upload and no
invalidation call. -/
theorem publish_config_abort (env : String → Option String) (dd : String) (de : Bool)
    (fl : List (List String)) (err : List String → Option String) (rh : String)
    (ce : Option String)
    (h : env "AWS_S3_BUCKET" = none ∨ env "AWS_S3_BUCKET" = some "" ∨ de = false) :
    (deployMain env dd de fl err rh ce).uploads = [] ∧
    (deployMain env dd de fl err rh ce).invalidations = [] ∧
    ∃ m, (deployMain env dd de fl err rh ce).outcome = .configExit m := by
  rcases h with h | h | h
  · simp [deployMain, h]
  · simp [deployMain, h]
  · subst h
    match hb : env "AWS_S3_BUCKET" with
    | none => simp [deployMain, hb]
    | some bkt =>
      by_cases hbe : bkt = ""
      · simp [deployMain, hb, hbe]
      · simp [deployMain, hb, hbe]

/-- Concrete instance of C3: an environment with no `AWS_S3_BUCKET` value
aborts with a configuration exit and an empty call trace. -/
theorem publish_config_abort_witness :
    (deployMain (fun _ => none) "dist" true [["index.html"]] (fun _ => none)
        "aa" none).uploads = [] ∧
    (deployMain (fun _ => none) "dist" true [["index.html"]] (fun _ => none)
        "aa" none).invalidations = [] ∧
    ∃ m, (deployMain (fun _ => none) "dist" true [["index.html"]] (fun _ => none)
        "aa" none).outcome = .configExit m :=
  publish_config_abort (fun _ => none) "dist" true [["index.html"]] (fun _ => none)
    "aa" none (Or.inl rfl)

/-- Claim C4: a missing or empty distribution identifier yields zero
invalidation calls and no error; a non-empty identifier yields exactly one
full-tree (`/*`) invalidation whose caller reference is derived from the
random bytes, and invocations with different random bytes get distinct
caller references. -/
theorem invalidation_policy :
    (∀ (r : String) (ce : Option String), invalidate_cloudfront none r ce = ([], none)) ∧
    (∀ (r : String) (ce : Option String),
      invalidate_cloudfront (some "") r ce = ([], none)) ∧
    (∀ (d r : String) (ce : Option String), d ≠ "" →
      (invalidate_cloudfront (some d) r ce).1 =
        [{ distributionId := d, quantity := 1, items := ["/*"],
           callerReference := "endodoncia-" ++ r }]) ∧
    (∀ (d₁ d₂ : Option String) (r₁ r₂ : String) (ce₁ ce₂ : Option String), r₁ ≠ r₂ →
      ∀ c₁ ∈ (invalidate_cloudfront d₁ r₁ ce₁).1,
      ∀ c₂ ∈ (invalidate_cloudfront d₂ r₂ ce₂).1,
        c₁.callerReference ≠ c₂.callerReference) := by
  refine ⟨fun r ce => rfl, fun r ce => rfl, ?_, ?_⟩
  · intro d r ce hd
    cases ce <;> simp [invalidate_cloudfront, hd]
  · intro d₁ d₂ r₁ r₂ ce₁ ce₂ hne c₁ hc₁ c₂ hc₂
    rw [mem_invalidation_calls d₁ r₁ ce₁ c₁ hc₁, mem_invalidation_calls d₂ r₂ ce₂ c₂ hc₂]
    intro heq
    exact hne (string_append_cancel_left heq)

/-- Concrete instance of C4: distribution `"EDIST"` gets exactly one `/*`
invalidation, and random hexes `"aa"` and `"bb"` give distinct references. -/
theorem invalidation_policy_witness :
    (invalidate_cloudfront (some "EDIST") "aa" none).1 =
      [{ distributionId := "EDIST", quantity := 1, items := ["/*"],
         callerReference := "endodoncia-aa" }] ∧
    ({ distributionId := "EDIST", quantity := 1, items := ["/*"],
       callerReference := "endodoncia-aa" } : InvalidationCall).callerReference ≠
      ({ distributionId := "EDIST", quantity := 1, items := ["/*"],
         callerReference := "endodoncia-bb" } : InvalidationCall).callerReference := by
  constructor
  · have h := invalidation_policy.2.2.1 "EDIST" "aa" none (by decide)
    simpa using h
  · exact invalidation_policy.2.2.2 (some "EDIST") (some "EDIST") "aa" "bb" none none
      (by decide)
      { distributionId := "EDIST", quantity := 1, items := ["/*"],
        callerReference := "endodoncia-aa" } (by decide)
      { distributionId := "EDIST", quantity := 1, items := ["/*"],
        callerReference := "endodoncia-bb" } (by decide)

/-- Claim C5: the upload loop never swallows a transfer failure: it reports
no error exactly when every attempted upload succeeded, and the first
failing file raises a runtime error naming both the source path and the
destination key. -/
theorem upload_failures_surfaced (dd b p : String) (err : List String → Option String) :
    (∀ fl : List (List String),
      ((upload_directory_to_s3 dd b p fl err).2 = none ↔ ∀ f ∈ fl, err f = none)) ∧
    (∀ (pre post : List (List String)) (f : List String) (e : String),
      (∀ g ∈ pre, err g = none) → err f = some e →
      (upload_directory_to_s3 dd b p (pre ++ f :: post) err).2 =
        some ("Failed to upload " ++ (mkUploadCall dd b p f).src ++ " -> " ++
              (mkUploadCall dd b p f).key ++ ": " ++ e)) := by
  constructor
  · exact upload_err_none_iff dd b p err
  · intro pre post f e hpre hf
    simp [upload_first_fail dd b p err f e hf pre post hpre]

/-- Concrete instance of C5: when `styles.css` fails after `a.html`
succeeded, the raised error names `dist/styles.css` and the key
`styles.css`. -/
theorem upload_failures_surfaced_witness :
    (upload_directory_to_s3 "dist" "bkt" ""
        [["a.html"], ["styles.css"], ["app.js"]]
        (fun f => if f = ["styles.css"] then some "boom" else none)).2 =
      some ("Failed to upload " ++
            (mkUploadCall "dist" "bkt" "" ["styles.css"]).src ++ " -> " ++
            (mkUploadCall "dist" "bkt" "" ["styles.css"]).key ++ ": " ++ "boom") :=
  (upload_failures_surfaced "dist" "bkt" ""
      (fun f => if f = ["styles.css"] then some "boom" else none)).2
    [["a.html"]] [["app.js"]] ["styles.css"] "boom" (by decide) (by decide)

/-- Claim C6: a failing invalidation call surfaces as a runtime error whose
message wraps the underlying failure, while the uploads already made in the
same invocation stay in the trace untouched (no rollback). -/
theorem invalidation_failure_no_rollback
    (env : String → Option String) (dd : String) (fl : List (List String))
    (err : List String → Option String) (rh e b d : String)
    (hb : env "AWS_S3_BUCKET" = some b) (hbne : b ≠ "")
    (hok : ∀ f ∈ fl, err f = none)
    (hd : env "CLOUDFRONT_DIST_ID" = some d) (hdne : d ≠ "") :
    deployMain env dd true fl err rh (some e) =
      { uploads := fl.map (mkUploadCall dd b ((env "AWS_S3_PREFIX").getD ""))
        invalidations := [{ distributionId := d, quantity := 1, items := ["/*"],
                            callerReference := "endodoncia-" ++ rh }]
        outcome := .runtimeError ("Failed to create invalidation: " ++ e) } := by
  simp [deployMain, hb, hbne,
    upload_all_ok dd b ((env "AWS_S3_PREFIX").getD "") err fl hok,
    hd, invalidate_cloudfront, hdne]

/-- Concrete instance of C6: with one uploaded file and a failing
invalidation on distribution `E1`, the outcome is the wrapped runtime error
and the upload remains in the trace. -/
theorem invalidation_failure_no_rollback_witness :
    deployMain
        (fun k => if k = "AWS_S3_BUCKET" then some "bkt"
                  else if k = "CLOUDFRONT_DIST_ID" then some "E1" else none)
        "dist" true [["index.html"]] (fun _ => none) "aa" (some "denied") =
      { uploads := [mkUploadCall "dist" "bkt" "" ["index.html"]]
        invalidations := [{ distributionId := "E1", quantity := 1, items := ["/*"],
                            callerReference := "endodoncia-aa" }]
        outcome := .runtimeError ("Failed to create invalidation: " ++ "denied") } := by
  have h := invalidation_failure_no_rollback
      (fun k => if k = "AWS_S3_BUCKET" then some "bkt"
                else if k = "CLOUDFRONT_DIST_ID" then some "E1" else none)
      "dist" [["index.html"]] (fun _ => none) "aa" "denied" "bkt" "E1"
      (by decide) (by decide) (by decide) (by decide) (by decide)
  simpa using h

theorem foldl_prepend {α β : Type} (g : α → β) :
    ∀ (l : List α) (d : List β),
      l.foldl (fun acc t => g t :: acc) d = (l.map g).reverse ++ d := by
  intro l
  induction l with
  | nil => intro d; simp
  | cons t l ih => intro d; simp [List.foldl_cons, ih]

/-- Claim C7: the build is deterministic — its output does not depend on the
previous contents of the output root, so rebuilding with unchanged
templates, context and assets reproduces the same files — and every file of
the output comes from the current template mapping or the current assets
tree, so no stale file survives a rebuild. -/
theorem build_deterministic_no_stale {Ctx : Type} (prev prev' : Dist)
    (assets : Option (List (String × String)))
    (renderFn : String → Ctx → String) (ctx : Ctx) :
    build prev assets renderFn ctx = build prev' assets renderFn ctx ∧
    ∀ p v, (p, v) ∈ build prev assets renderFn ctx →
      (∃ t ∈ siteTemplates, p = t.2) ∨
      (∃ l, assets = some l ∧ ∃ a ∈ l, p = "assets/" ++ a.1) := by
  constructor
  · rfl
  · intro p v hm
    unfold build render_templates at hm
    rw [foldl_prepend] at hm
    rcases List.mem_append.1 hm with hm | hm
    · left
      rw [List.mem_reverse] at hm
      obtain ⟨t, ht, hpt⟩ := List.mem_map.1 hm
      exact ⟨t, ht, (congrArg Prod.fst hpt).symm⟩
    · right
      match assets with
      | none => simp [copy_assets, clean_dist] at hm
      | some l =>
        simp only [copy_assets, clean_dist, List.append_nil] at hm
        obtain ⟨a, ha, hpa⟩ := List.mem_map.1 hm
        exact ⟨l, rfl, a, ha, (congrArg Prod.fst hpa).symm⟩

/-- Concrete instance of C7: rebuilding over a stale output root equals
building from an empty one, and the copied asset path is accounted for by
the current assets tree. -/
theorem build_deterministic_no_stale_witness :
    (build [("stale.html", "old")] (some [("css/styles.css", "x")])
        (fun n (_ : Unit) => n) () =
      build [] (some [("css/styles.css", "x")]) (fun n (_ : Unit) => n) ()) ∧
    ((∃ t ∈ siteTemplates, "assets/css/styles.css" = t.2) ∨
      (∃ l, (some [("css/styles.css", "x")] : Option (List (String × String))) = some l ∧
        ∃ a ∈ l, "assets/css/styles.css" = "assets/" ++ a.1)) :=
  ⟨(build_deterministic_no_stale [("stale.html", "old")] []
      (some [("css/styles.css", "x")]) (fun n (_ : Unit) => n) ()).1,
   (build_deterministic_no_stale [("stale.html", "old")] []
      (some [("css/styles.css", "x")]) (fun n (_ : Unit) => n) ()).2
     "assets/css/styles.css" "x" (by decide)⟩

/-- Claim C8: starting the server on an already-bound port prints the
diagnostic naming the port and the `port + 1` suggestion, and the serve
loop is never entered. -/
theorem serve_port_in_use (dd : String) (port : Nat) (e : String)
    (he : strContains e "Address already in use" = true) :
    (serve_site dd true port (some e)).enteredServeLoop = false ∧
    ("❌ Port " ++ toString port ++ " is already in use. Try a different port:")
        ∈ (serve_site dd true port (some e)).printed ∧
    ("   python serve.py " ++ toString (port + 1))
        ∈ (serve_site dd true port (some e)).printed := by
  simp [serve_site, he, serveBanner]

/-- Concrete instance of C8: port 8000 already in use suggests
`python serve.py 8001` and does not serve. -/
theorem serve_port_in_use_witness :
    (serve_site "dist" true 8000
        (some "[Errno 98] Address already in use")).enteredServeLoop = false ∧
    ("❌ Port " ++ toString 8000 ++ " is already in use. Try a different port:")
        ∈ (serve_site "dist" true 8000
            (some "[Errno 98] Address already in use")).printed ∧
    ("   python serve.py " ++ toString (8000 + 1))
        ∈ (serve_site "dist" true 8000
            (some "[Errno 98] Address already in use")).printed :=
  serve_port_in_use "dist" 8000 "[Errno 98] Address already in use" (by decide)

/-- Claim C9: content-type dispatch is case-sensitive: a file whose
extension is a letter-case variant of `.html`, `.css` or `.js` but not
exactly one of those lowercase literals is uploaded with no explicit
content-type override. -/
theorem content_type_case_sensitive (dd b p : String) (f : List String)
    (_hcase : (pySuffix (lastComp f)).toList.map Char.toLower ∈
      [".html".toList, ".css".toList, ".js".toList])
    (hne : pySuffix (lastComp f) ∉ ([".html", ".css", ".js"] : List String)) :
    (mkUploadCall dd b p f).contentType = none := by
  simp only [List.mem_cons, List.mem_singleton, not_or] at hne
  obtain ⟨h1, h2, h3⟩ := hne
  simp [mkUploadCall, extContentType, h1, h2, h3]

/-- Concrete instance of C9: `PAGE.HTML` is uploaded with no explicit
content-type override. -/
theorem content_type_case_sensitive_witness :
    (mkUploadCall "dist" "bkt" "" ["PAGE.HTML"]).contentType = none :=
  content_type_case_sensitive "dist" "bkt" "" ["PAGE.HTML"] (by decide) (by decide)

/-- Claim C10: the Publisher is fail-fast: when the first failing upload is
reached, the files after it are never attempted, the outcome is a runtime
error, and no invalidation call is made in that invocation. -/
theorem publisher_fail_fast (env : String → Option String) (dd : String)
    (pre post : List (List String)) (f : List String)
    (err : List String → Option String) (rh : String) (ce : Option String)
    (e b : String)
    (hb : env "AWS_S3_BUCKET" = some b) (hbne : b ≠ "")
    (hpre : ∀ g ∈ pre, err g = none) (hf : err f = some e) :
    (deployMain env dd true (pre ++ f :: post) err rh ce).uploads =
      (pre ++ [f]).map (mkUploadCall dd b ((env "AWS_S3_PREFIX").getD "")) ∧
    (deployMain env dd true (pre ++ f :: post) err rh ce).invalidations = [] ∧
    ∃ m, (deployMain env dd true (pre ++ f :: post) err rh ce).outcome =
      .runtimeError m := by
  simp [deployMain, hb, hbne,
    upload_first_fail dd b ((env "AWS_S3_PREFIX").getD "") err f e hf pre post hpre]

/-- Concrete instance of C10: with `a.html` succeeding, `styles.css`
failing and `app.js` enumerated after it, only the first two files are
attempted and no invalidation happens. -/
theorem publisher_fail_fast_witness :
    (deployMain
        (fun k => if k = "AWS_S3_BUCKET" then some "bkt"
                  else if k = "CLOUDFRONT_DIST_ID" then some "E1" else none)
        "dist" true ([["a.html"]] ++ ["styles.css"] :: [["app.js"]])
        (fun g => if g = ["styles.css"] then some "boom" else none)
        "aa" none).uploads =
      ([["a.html"]] ++ [["styles.css"]]).map
        (mkUploadCall "dist" "bkt"
          (((fun k => if k = "AWS_S3_BUCKET" then some "bkt"
                      else if k = "CLOUDFRONT_DIST_ID" then some "E1" else none)
              "AWS_S3_PREFIX").getD "")) ∧
    (deployMain
        (fun k => if k = "AWS_S3_BUCKET" then some "bkt"
                  else if k = "CLOUDFRONT_DIST_ID" then some "E1" else none)
        "dist" true ([["a.html"]] ++ ["styles.css"] :: [["app.js"]])
        (fun g => if g = ["styles.css"] then some "boom" else none)
        "aa" none).invalidations = [] ∧
    ∃ m, (deployMain
        (fun k => if k = "AWS_S3_BUCKET" then some "bkt"
                  else if k = "CLOUDFRONT_DIST_ID" then some "E1" else none)
        "dist" true ([["a.html"]] ++ ["styles.css"] :: [["app.js"]])
        (fun g => if g = ["styles.css"] then some "boom" else none)
        "aa" none).outcome = .runtimeError m :=
  publisher_fail_fast
    (fun k => if k = "AWS_S3_BUCKET" then some "bkt"
              else if k = "CLOUDFRONT_DIST_ID" then some "E1" else none)
    "dist" [["a.html"]] [["app.js"]] ["styles.css"]
    (fun g => if g = ["styles.css"] then some "boom" else none)
    "aa" none "boom" "bkt" (by decide) (by decide) (by decide) (by decide)

end Endodoncia
